import Mathlib

/-!
Verification development for an email-triggered natural-language-to-SQL
reporting pipeline (FastAPI webhook, `main.py`).

The pure string manipulation of the source (Python `str.replace`,
`str.strip`) is embedded directly on `List Char`.  The effectful pipeline
(HTTP calls to the generative API, SQLite execution, `exec` of generated
code) is embedded by passing an explicit oracle environment `Env` whose
fields give the outcome of each external interaction, and by having every
function return, next to its `Except`-typed result, the list of external
events it performed, in order.  Database cell values are modelled as
integers (the concrete cell type plays no role in any property considered
here).
-/

namespace NlSql

/-! ## Python string primitives -/

/-- One scanning pass of Python `str.replace(pat, "")` for a non-empty
pattern: scan left to right, drop each leftmost occurrence of `pat`, and
continue scanning after the dropped occurrence.  The `Nat` argument is
recursion fuel; `replaceAll` supplies the length of the string, which
suffices because every step consumes at least one character. -/
def replaceAllGo (pat : List Char) : Nat → List Char → List Char
  | _, [] => []
  | 0, s => s
  | Nat.succ f, c :: cs =>
    if pat.isPrefixOf (c :: cs) then replaceAllGo pat f (cs.drop (pat.length - 1))
    else c :: replaceAllGo pat f cs

/-- Python `s.replace(pat, "")` for a non-empty `pat`. -/
def replaceAll (pat s : List Char) : List Char := replaceAllGo pat s.length s

/-- The character class removed by Python `str.strip()` (the ASCII
whitespace characters). -/
def isPySpace (c : Char) : Bool :=
  c = ' ' || c = '\t' || c = '\n' || c = '\r' || c = '\x0b' || c = '\x0c'

/-- Python `s.strip()`: drop whitespace from both ends. -/
def stripWs (s : List Char) : List Char :=
  ((s.dropWhile isPySpace).reverse.dropWhile isPySpace).reverse

/-- The backtick character (U+0060). -/
def backtick : Char := Char.ofNat 96

def sqlitePat : List Char := "sqlite".toList

def sqlPat : List Char := "sql".toList

/-- The pattern of the three-backtick markdown fence. -/
def fencePat : List Char := [backtick, backtick, backtick]

/-- The pattern of an opening python markdown fence. -/
def fencePyPat : List Char := fencePat ++ "python".toList

/-- The sanitization applied to the model response in `call_gemini`
(main.py line 108):
`sql.replace("sqlite", "").replace(backtick, "").replace("sql", "").strip()`. -/
def sanitizeChars (s : List Char) : List Char :=
  stripWs (replaceAll sqlPat (replaceAll [backtick] (replaceAll sqlitePat s)))

/-- String-level version of `sanitizeChars`. -/
def sanitizeStr (s : String) : String := String.mk (sanitizeChars s.data)

/-- The code-fence stripping applied to the model response in
`prompt_gemini_for_plotly_viz` (main.py line 144):
`code.replace(fencePy, "").replace(fence, "").strip()`. -/
def stripFencesStr (s : String) : String :=
  String.mk (stripWs (replaceAll fencePat (replaceAll fencePyPat s.data)))

/-! ## JSON values and Python truthiness -/

/-- JSON values, as delivered by `request.json()`.  Numbers are modelled
as integers. -/
inductive JVal where
  | jnull
  | jbool (b : Bool)
  | jnum (n : Int)
  | jstr (s : String)
  | jarr (elems : List JVal)
  | jobj (fields : List (String × JVal))

/-- Python truthiness of a JSON value (`None`, `False`, `0`, `""`, `[]`
and `\x7b\x7d` are falsy). -/
def truthy : JVal → Bool
  | .jnull => false
  | .jbool b => b
  | .jnum n => n != 0
  | .jstr s => s != ""
  | .jarr xs => !xs.isEmpty
  | .jobj fs => !fs.isEmpty

/-- Python `str()` of a JSON value, as performed by the f-strings of the
source when the extracted query value is interpolated.  The rendering of
list and object values is abstracted to a fixed marker (their inner
structure is irrelevant to every property considered here). -/
def pyStr : JVal → String
  | .jnull => "None"
  | .jbool true => "True"
  | .jbool false => "False"
  | .jnum n => toString n
  | .jstr s => s
  | .jarr _ => "[...]"
  | .jobj _ => "\x7b...\x7d"

/-- Python `data.get(k)`: the value of the first binding of `k`, and
`None` when `k` is absent. -/
def jget (data : List (String × JVal)) (k : String) : JVal :=
  match data.find? (fun kv => kv.1 == k) with
  | some kv => kv.2
  | none => .jnull

/-- Python `a or b`: `a` when `a` is truthy, otherwise `b`. -/
def pyOr (a b : JVal) : JVal := if truthy a then a else b

/-! ## The oracle environment and the event trace -/

/-- A database row.  Cell values are modelled as integers. -/
abbrev Row := List Int

/-- Observable external events of one request, in order of occurrence:
an HTTP POST to the generative API, opening/using/closing the SQLite
connection, `exec` of the generated visualization code, the static-table
fallback rendering (saving the given columns and rows under the given
filename), and the printing of the composed reply body. -/
inductive Ev where
  | apiCall (prompt : String)
  | dbOpen
  | dbExec (sql : String)
  | dbClose
  | execViz (code : String)
  | fallbackTable (columns : List String) (rows : List Row) (filename : String)
  | printBody (body : String)
deriving DecidableEq

/-- The oracle environment: outcome of every external interaction.
`gemini_api_key` is the value of the `GEMINI_API_KEY` environment
variable; `api` maps a prompt to the text the generative API returns (or
a raised error, covering transport and non-2xx failures); `db` maps a
SQL string to the column names and rows SQLite returns (or a raised
driver error); `execResult` is `none` when `exec` of the given code runs
without exception and `some msg` when it raises; `nowStamp` is the
`datetime.now().strftime` timestamp used in the image filename. -/
structure Env where
  gemini_api_key : Option String
  api : String → Except String String
  db : String → Except String (List String × List Row)
  execResult : String → Option String
  nowStamp : String

/-- The `if not api_key` test of `call_gemini_api` (main.py line 92):
true when the environment variable is unset or empty. -/
def keyMissing (env : Env) : Bool :=
  match env.gemini_api_key with
  | none => true
  | some k => k == ""

/-! ## The pipeline, translated from main.py -/

/-- The `NORTHWIND_SCHEMA` string literal (main.py lines 21-70). -/
def NORTHWIND_SCHEMA : String :=
  "\nCREATE TABLE Customers (\n    CustomerID TEXT PRIMARY KEY,\n    CompanyName TEXT,\n    ContactName TEXT,\n    ContactTitle TEXT,\n    Address TEXT,\n    City TEXT,\n    Region TEXT,\n    PostalCode TEXT,\n    Country TEXT,\n    # Phone TEXT,\n    Fax TEXT\n);\nCREATE TABLE Orders (\n    OrderID INTEGER PRIMARY KEY,\n    CustomerID TEXT,\n    EmployeeID INTEGER,\n    OrderDate TEXT,\n    RequiredDate TEXT,\n    ShippedDate TEXT,\n    ShipVia INTEGER,\n    Freight REAL,\n    ShipName TEXT,\n    ShipAddress TEXT,\n    ShipCity TEXT,\n    ShipRegion TEXT,\n    ShipPostalCode TEXT,\n    ShipCountry TEXT\n);\nCREATE TABLE [Order Details] (\n    OrderID INTEGER,\n    ProductID INTEGER,\n    UnitPrice REAL,\n    Quantity INTEGER,\n    Discount REAL\n);\nCREATE TABLE Products (\n    ProductID INTEGER PRIMARY KEY,\n    ProductName TEXT,\n    SupplierID INTEGER,\n    CategoryID INTEGER,\n    QuantityPerUnit TEXT,\n    UnitPrice REAL,\n    UnitsInStock INTEGER,\n    UnitsOnOrder INTEGER,\n    ReorderLevel INTEGER,\n    Discontinued INTEGER\n);\n"

/-- `compose_gemini_prompt` (main.py lines 74-86). -/
def compose_gemini_prompt (schema nl_query : String) : String :=
  "\nYou are an expert SQL assistant. Given the following database schema:\n"
    ++ schema
    ++ "\n\nConvert the following natural language question into a valid SQLite SQL query. Only return the SQL query, nothing else.\n\nQuestion: "
    ++ nl_query
    ++ "\n\nSQL: \n\nNote: Ensure the SQL query is valid for SQLite and does not include any comments or explanations or is marked in markdown format.\n"

/-- `call_gemini_api` (main.py lines 90-101): raise when the API key is
unset or empty, before any HTTP call; otherwise POST the prompt and
return the extracted response text (or raise on transport/HTTP error).
The returned trace records the HTTP call when one is made. -/
def call_gemini_api (env : Env) (prompt : String) : Except String String × List Ev :=
  if keyMissing env then (Except.error "GEMINI_API_KEY not set", [])
  else
    match env.api prompt with
    | Except.error e => (Except.error e, [Ev.apiCall prompt])
    | Except.ok t => (Except.ok t, [Ev.apiCall prompt])

/-- `call_gemini` (main.py lines 105-110): compose the SQL prompt, call
the API, and sanitize the response. -/
def call_gemini (env : Env) (nl_query : String) : Except String String × List Ev :=
  match call_gemini_api env (compose_gemini_prompt NORTHWIND_SCHEMA nl_query) with
  | (Except.error e, tr) => (Except.error e, tr)
  | (Except.ok sql, tr) => (Except.ok (sanitizeStr sql), tr)

/-- `run_sql` (main.py lines 114-129): open a connection, execute the
statement, fetch columns and rows, and close the connection.  The close
happens only after execute and fetch succeed; on a driver error the
exception propagates with the connection still open, so the trace of the
error case has no `dbClose` event. -/
def run_sql (env : Env) (sql : String) : Except String (List String × List Row) × List Ev :=
  match env.db sql with
  | Except.error e => (Except.error e, [Ev.dbOpen, Ev.dbExec sql])
  | Except.ok (columns, rows) =>
      (Except.ok (columns, rows), [Ev.dbOpen, Ev.dbExec sql, Ev.dbClose])

/-- The row sample of `prompt_gemini_for_plotly_viz` (main.py line 136):
`rows[:10] if len(rows) > 10 else rows`. -/
def sample_rows (rows : List Row) : List Row :=
  if rows.length > 10 then rows.take 10 else rows

/-- Python `repr` of a string, as it appears inside the repr of the
column list. -/
def pyReprStr (s : String) : String := "\x27" ++ s ++ "\x27"

/-- Python repr of the column-name list. -/
def showCols (cols : List String) : String :=
  "[" ++ String.intercalate ", " (cols.map pyReprStr) ++ "]"

/-- Python repr of one row tuple. -/
def showRow (r : Row) : String :=
  "(" ++ String.intercalate ", " (r.map toString)
    ++ (if r.length = 1 then ",)" else ")")

/-- Python repr of the sampled row list. -/
def showRows (rs : List Row) : String :=
  "[" ++ String.intercalate ", " (rs.map showRow) ++ "]"

/-- The visualization prompt f-string (main.py lines 137-142), as a
function of the question, the columns, the embedded row sample and the
image filename. -/
def vizPromptStr (nl_query : String) (columns : List String) (sample : List Row)
    (img_filename : String) : String :=
  "\nYou are a Python data visualization expert. Given the following SQL query result for the question: \""
    ++ nl_query
    ++ "\",\nwith columns: "
    ++ showCols columns
    ++ "\nand sample rows: "
    ++ showRows sample
    ++ "\nWrite Python code using the plotly library to visualize the result in the most appropriate way (bar, pie, line, table, etc). Save the visualization as a PNG file in the current directory with the filename: "
    ++ img_filename
    ++ ". Do not show the plot, just save it. Assume the data is available as a pandas DataFrame named df. Only return the code, nothing else.\n"

/-- `prompt_gemini_for_plotly_viz` (main.py lines 133-146): build the
prompt around the row sample, call the API, and strip markdown fences
from the returned code. -/
def prompt_gemini_for_plotly_viz (env : Env) (nl_query : String) (columns : List String)
    (rows : List Row) (img_filename : String) : Except String String × List Ev :=
  match call_gemini_api env (vizPromptStr nl_query columns (sample_rows rows) img_filename) with
  | (Except.error e, tr) => (Except.error e, tr)
  | (Except.ok code, tr) => (Except.ok (stripFencesStr code), tr)

/-- The timestamped image filename of `visualise_and_save`
(main.py line 152). -/
def img_name (env : Env) : String := "img-" ++ env.nowStamp ++ ".png"

/-- `visualise_and_save` (main.py lines 150-169): obtain visualization
code, `exec` it; on any exception fall back to rendering the raw rows
and columns as a static matplotlib table saved under the same filename.
Both branches return the filename and the literal chart type label
`plotly`. -/
def visualise_and_save (env : Env) (columns : List String) (rows : List Row)
    (nl_query : String) : Except String (String × String) × List Ev :=
  match prompt_gemini_for_plotly_viz env nl_query columns rows (img_name env) with
  | (Except.error e, tr) => (Except.error e, tr)
  | (Except.ok code, tr) =>
    match env.execResult code with
    | none => (Except.ok (img_name env, "plotly"), tr ++ [Ev.execViz code])
    | some _ =>
        (Except.ok (img_name env, "plotly"),
          tr ++ [Ev.execViz code, Ev.fallbackTable columns rows (img_name env)])

/-- The reply body f-string (main.py line 216). -/
def bodyText (nl_query sql : String) (nrows : Nat) (chart_type : String) : String :=
  "Your query: " ++ nl_query ++ "\n\nSQL: " ++ sql ++ "\n\nResult: "
    ++ toString nrows ++ " rows. See attached " ++ chart_type ++ " visualization."

/-- The query extraction of the webhook (main.py line 209):
`data.get("TextBody") or data.get("stripped-text") or data.get("Body")`. -/
def extract_nl_query (data : List (String × JVal)) : JVal :=
  pyOr (jget data "TextBody") (pyOr (jget data "stripped-text") (jget data "Body"))

/-- The 400 response body of the webhook (main.py line 211). -/
def err400 : Nat × JVal :=
  (400, JVal.jobj [("error", JVal.jstr "No query found in email.")])

/-- The `/webhook` handler (main.py lines 203-224).  The result is the
HTTP response (status code and JSON body) or, since the try/except
around the pipeline is commented out, the uncaught exception; the second
component is the trace of external events.  The email-sending and
file-deletion lines are commented out in the source, so the only effect
after visualization is the printing of the composed body. -/
def webhook (env : Env) (data : List (String × JVal)) :
    Except String (Nat × JVal) × List Ev :=
  if truthy (extract_nl_query data) = false then
    (Except.ok err400, [])
  else
    match call_gemini env (pyStr (extract_nl_query data)) with
    | (Except.error e, tr1) => (Except.error e, tr1)
    | (Except.ok sql, tr1) =>
      match run_sql env sql with
      | (Except.error e, tr2) => (Except.error e, tr1 ++ tr2)
      | (Except.ok (columns, rows), tr2) =>
        match visualise_and_save env columns rows (pyStr (extract_nl_query data)) with
        | (Except.error e, tr3) => (Except.error e, tr1 ++ tr2 ++ tr3)
        | (Except.ok (_img_path, chart_type), tr3) =>
            (Except.ok (200, JVal.jobj
                [("status", JVal.jstr "ok"), ("sql", JVal.jstr sql),
                 ("rows", JVal.jnum rows.length)]),
              tr1 ++ tr2 ++ tr3
                ++ [Ev.printBody
                      (bodyText (pyStr (extract_nl_query data)) sql rows.length chart_type)])

/-! ## Derived observations: the canonical full-run trace

These definitions read each stage's outcome off the oracle environment
(with a default where an earlier stage failed and the value is never
used) and spell out the event trace of a complete run, in pipeline
order: SQL generation, query execution, visualization, body printing. -/

/-- The SQL-generation prompt of a request. -/
def genPromptOf (data : List (String × JVal)) : String :=
  compose_gemini_prompt NORTHWIND_SCHEMA (pyStr (extract_nl_query data))

/-- The sanitized SQL a request executes. -/
def genSqlOf (env : Env) (data : List (String × JVal)) : String :=
  sanitizeStr ((env.api (genPromptOf data)).toOption.getD "")

/-- The columns the database returns for the request. -/
def dbColsOf (env : Env) (data : List (String × JVal)) : List String :=
  ((env.db (genSqlOf env data)).toOption.getD ([], [])).1

/-- The rows the database returns for the request. -/
def dbRowsOf (env : Env) (data : List (String × JVal)) : List Row :=
  ((env.db (genSqlOf env data)).toOption.getD ([], [])).2

/-- The visualization prompt of a request. -/
def vizPromptOf (env : Env) (data : List (String × JVal)) : String :=
  vizPromptStr (pyStr (extract_nl_query data)) (dbColsOf env data)
    (sample_rows (dbRowsOf env data)) (img_name env)

/-- The fence-stripped visualization code of a request. -/
def vizCodeOf (env : Env) (data : List (String × JVal)) : String :=
  stripFencesStr ((env.api (vizPromptOf env data)).toOption.getD "")

/-- The printed reply body of a request. -/
def bodyOf (env : Env) (data : List (String × JVal)) : String :=
  bodyText (pyStr (extract_nl_query data)) (genSqlOf env data)
    (dbRowsOf env data).length "plotly"

/-- The tail of the full-run trace after the `exec` of the generated
code: the fallback rendering when `exec` raises, then the body print. -/
def fullTraceTail (env : Env) (data : List (String × JVal)) : List Ev :=
  match env.execResult (vizCodeOf env data) with
  | none => [Ev.printBody (bodyOf env data)]
  | some _ =>
      [Ev.fallbackTable (dbColsOf env data) (dbRowsOf env data) (img_name env),
       Ev.printBody (bodyOf env data)]

/-- The full event trace of a run in which every stage completes:
the generation API call, then the database open/execute/close, then the
visualization API call and the `exec` of its code (with the fallback
rendering when `exec` raises), then the body print. -/
def fullTraceOf (env : Env) (data : List (String × JVal)) : List Ev :=
  Ev.apiCall (genPromptOf data) ::
  Ev.dbOpen :: Ev.dbExec (genSqlOf env data) :: Ev.dbClose ::
  Ev.apiCall (vizPromptOf env data) :: Ev.execViz (vizCodeOf env data) ::
  fullTraceTail env data

/-! ## Concrete instances used by the witnesses -/

/-- An environment in which every external interaction succeeds: the API
returns a fixed SQL statement for any prompt, the database returns one
count row, and `exec` of the generated code succeeds. -/
def envEx : Env :=
  ⟨some "test-key",
   fun _ => Except.ok "SELECT COUNT(*) FROM Orders",
   fun _ => Except.ok (["COUNT(*)"], [[830]]),
   fun _ => none,
   "20250101-120000"⟩

/-- An environment whose generated visualization code raises on `exec`. -/
def envFail : Env :=
  ⟨some "test-key",
   fun _ => Except.ok "fig.write_image(filename)",
   fun _ => Except.ok (["COUNT(*)"], [[830]]),
   fun _ => some "NameError: name fig is not defined",
   "20250101-120000"⟩

/-- An environment with the `GEMINI_API_KEY` variable unset. -/
def envNoKey : Env :=
  ⟨none,
   fun _ => Except.ok "SELECT COUNT(*) FROM Orders",
   fun _ => Except.ok (["COUNT(*)"], [[830]]),
   fun _ => none,
   "20250101-120000"⟩

/-- An environment whose database raises a driver error on execution. -/
def envDbErr : Env :=
  ⟨some "test-key",
   fun _ => Except.ok "SELECT COUNT(*) FROM Orders",
   fun _ => Except.error "no such table: Orders",
   fun _ => none,
   "20250101-120000"⟩

/-- A payload carrying a query in `TextBody`. -/
def dataEx : List (String × JVal) :=
  [("From", JVal.jstr "alice@example.com"), ("Subject", JVal.jstr "report"),
   ("TextBody", JVal.jstr "How many orders are there?")]

/-- A payload with sender and subject but no recognized query field. -/
def dataNoQuery : List (String × JVal) :=
  [("From", JVal.jstr "alice@example.com"), ("Subject", JVal.jstr "report")]

/-- A payload in which all three recognized query fields are present but
hold empty strings. -/
def dataEmptyFields : List (String × JVal) :=
  [("From", JVal.jstr "alice@example.com"), ("TextBody", JVal.jstr ""),
   ("stripped-text", JVal.jstr ""), ("Body", JVal.jstr "")]

/-- A twelve-row result set. -/
def rows12 : List Row :=
  [[1], [2], [3], [4], [5], [6], [7], [8], [9], [10], [11], [12]]

/-- A three-row result set. -/
def rows3 : List Row := [[1], [2], [3]]

/-! # Theorems -/

/-! ## Lemmas on the string primitives -/

/-- Characters of `replaceAllGo pat f s` come from `s` (the replacement
text is empty, so no character is introduced). -/
theorem mem_replaceAllGo {a : Char} {pat : List Char} :
    ∀ {f : Nat} {s : List Char}, a ∈ replaceAllGo pat f s → a ∈ s := by
  intro f
  induction f with
  | zero =>
    intro s h
    cases s with
    | nil => simp [replaceAllGo] at h
    | cons c cs => simpa [replaceAllGo] using h
  | succ f ih =>
    intro s h
    cases s with
    | nil => simp [replaceAllGo] at h
    | cons c cs =>
      by_cases hp : pat.isPrefixOf (c :: cs)
      · have h1 : a ∈ replaceAllGo pat f (cs.drop (pat.length - 1)) := by
          simpa [replaceAllGo, hp] using h
        have h2 : a ∈ cs.drop (pat.length - 1) := ih h1
        exact List.mem_cons_of_mem _ (List.drop_subset _ _ h2)
      · have h1 : a = c ∨ a ∈ replaceAllGo pat f cs := by
          simpa [replaceAllGo, hp] using h
        rcases h1 with h1 | h1
        · exact h1 ▸ List.mem_cons_self _ _
        · exact List.mem_cons_of_mem _ (ih h1)

/-- Removing all occurrences of the one-character pattern `[c]` removes
every `c`, provided the fuel covers the string. -/
theorem not_mem_replaceAllGo_single (c : Char) :
    ∀ (f : Nat) (s : List Char), s.length ≤ f → c ∉ replaceAllGo [c] f s := by
  intro f
  induction f with
  | zero =>
    intro s hf
    have hs : s = [] := List.eq_nil_of_length_eq_zero (Nat.le_zero.mp hf)
    subst hs
    simp [replaceAllGo]
  | succ f ih =>
    intro s hf
    cases s with
    | nil => simp [replaceAllGo]
    | cons a as =>
      by_cases hac : a = c
      · have hp : [c].isPrefixOf (a :: as) = true := by
          simp [List.isPrefixOf, hac]
        have hlen : as.length ≤ f := Nat.le_of_succ_le_succ (by simpa using hf)
        simpa [replaceAllGo, hp] using ih as hlen
      · have hp : [c].isPrefixOf (a :: as) = false := by
          simp [List.isPrefixOf]
          exact fun h => hac h.symm
        have hlen : as.length ≤ f := Nat.le_of_succ_le_succ (by simpa using hf)
        simp [replaceAllGo, hp]
        exact ⟨fun h => hac h.symm, ih as hlen⟩

/-- Characters of `l.dropWhile p` come from `l`. -/
theorem mem_of_dropWhile {α : Type} {p : α → Bool} {a : α} :
    ∀ {l : List α}, a ∈ l.dropWhile p → a ∈ l := by
  intro l
  induction l with
  | nil => intro h; simp at h
  | cons b bs ih =>
    intro h
    by_cases hb : p b
    · rw [List.dropWhile_cons_of_pos hb] at h
      exact List.mem_cons_of_mem _ (ih h)
    · rw [List.dropWhile_cons_of_neg hb] at h
      exact h

/-- Characters of `stripWs s` come from `s`. -/
theorem mem_of_stripWs {a : Char} {s : List Char} (h : a ∈ stripWs s) : a ∈ s := by
  unfold stripWs at h
  rw [List.mem_reverse] at h
  have h1 := mem_of_dropWhile h
  rw [List.mem_reverse] at h1
  exact mem_of_dropWhile h1

/-- The sanitized model response never contains a backtick: the second
removal pass deletes every backtick, and the later `sql` removal and the
trimming introduce no character. -/
theorem backtick_not_mem_sanitizeChars (s : List Char) :
    backtick ∉ sanitizeChars s := by
  intro h
  have h1 := mem_of_stripWs h
  rw [replaceAll] at h1
  have h2 := mem_replaceAllGo h1
  rw [replaceAll] at h2
  exact not_mem_replaceAllGo_single backtick _ _ (Nat.le_refl _) h2

/-! ## C1 -/

/-- C1, counterexample: the claim that the sanitization step produces a
string containing no occurrence of `sqlite`, the backtick, or `sql` is
false.  On the model response `ssqlqlite`, removing the single `sql`
occurrence concatenates the surrounding fragments into the output
`sqlite`, which contains both `sqlite` and `sql` as substrings. -/
theorem c1_sanitize_counterexample :
    sanitizeStr "ssqlqlite" = "sqlite"
    ∧ "sqlite".toList <:+: (sanitizeStr "ssqlqlite").toList
    ∧ "sql".toList <:+: (sanitizeStr "ssqlqlite").toList := by
  refine ⟨by decide, ?_, ?_⟩
  · rw [show sanitizeStr "ssqlqlite" = "sqlite" from by decide]
  · rw [show sanitizeStr "ssqlqlite" = "sqlite" from by decide]
    exact ⟨[], ['i', 't', 'e'], by decide⟩

/-- C1, amended: the sanitization step applies, in order, single left-to-
right removal passes for `sqlite`, the backtick, and `sql`, then trims
surrounding whitespace.  The output never contains a backtick, but the
removals can concatenate remaining fragments into new occurrences of
`sql` or `sqlite`; on the input `SELECT * FROM sql_products` the output
is `SELECT * FROM _products`, as the claim states. -/
theorem c1_sanitize_amended :
    (∀ s : String, backtick ∉ (sanitizeStr s).toList)
    ∧ sanitizeStr "SELECT * FROM sql_products" = "SELECT * FROM _products" := by
  constructor
  · intro s
    exact backtick_not_mem_sanitizeChars s.data
  · decide

/-! ## C2 -/

/-- C2: when none of the fields `TextBody`, `stripped-text` and `Body`
yields query text (each is absent or falsy), the webhook returns status
400 with the error body, whatever other fields the payload carries, and
performs no external action at all: no SQL generation, no query
execution, no visualization. -/
theorem c2_webhook_400_on_missing_query (env : Env) (data : List (String × JVal))
    (h1 : truthy (jget data "TextBody") = false)
    (h2 : truthy (jget data "stripped-text") = false)
    (h3 : truthy (jget data "Body") = false) :
    webhook env data
      = (Except.ok (400, JVal.jobj [("error", JVal.jstr "No query found in email.")]), []) := by
  have hq : truthy (extract_nl_query data) = false := by
    simp [extract_nl_query, pyOr, h1, h2, h3]
  simp [webhook, hq, err400]

/-- C2, witness: a payload with only sender and subject gets the 400
response and an empty event trace. -/
theorem c2_webhook_400_witness :
    webhook envEx dataNoQuery
      = (Except.ok (400, JVal.jobj [("error", JVal.jstr "No query found in email.")]), []) :=
  c2_webhook_400_on_missing_query envEx dataNoQuery rfl rfl rfl

/-! ## C7 -/

/-- C7: when the `GEMINI_API_KEY` environment variable is unset or
empty, `call_gemini_api` raises before performing any HTTP call (its
trace is empty), and for any payload carrying a query the exception
propagates out of the webhook uncaught: the handler result is the raised
error, not a structured response, and the request performed no external
action. -/
theorem c7_missing_key_fatal (env : Env) (data : List (String × JVal)) (prompt : String)
    (hk : keyMissing env = true) :
    call_gemini_api env prompt = (Except.error "GEMINI_API_KEY not set", [])
    ∧ (truthy (extract_nl_query data) = true →
        webhook env data = (Except.error "GEMINI_API_KEY not set", [])) := by
  constructor
  · simp [call_gemini_api, hk]
  · intro hq
    simp [webhook, hq, call_gemini, call_gemini_api, hk]

/-- C7, witness: with the key unset, an arbitrary prompt raises before
any HTTP call and a payload with a query makes the webhook end in the
uncaught exception. -/
theorem c7_missing_key_witness :
    call_gemini_api envNoKey "any prompt" = (Except.error "GEMINI_API_KEY not set", [])
    ∧ (truthy (extract_nl_query dataEx) = true →
        webhook envNoKey dataEx = (Except.error "GEMINI_API_KEY not set", [])) :=
  c7_missing_key_fatal envNoKey dataEx "any prompt" rfl

/-! ## C8 -/

/-- C8: a payload in which `TextBody`, `stripped-text` and `Body` are
all present but hold empty strings is treated as having no query and
gets the 400 response; and in general the query value is the first of
these three fields whose value is truthy, not merely present. -/
theorem c8_empty_fields_400 (env : Env) (data : List (String × JVal))
    (h1 : jget data "TextBody" = JVal.jstr "")
    (h2 : jget data "stripped-text" = JVal.jstr "")
    (h3 : jget data "Body" = JVal.jstr "") :
    webhook env data = (Except.ok err400, [])
    ∧ ∀ d : List (String × JVal),
        extract_nl_query d =
          (if truthy (jget d "TextBody") then jget d "TextBody"
           else if truthy (jget d "stripped-text") then jget d "stripped-text"
           else jget d "Body") := by
  constructor
  · have hq : truthy (extract_nl_query data) = false := by
      simp [extract_nl_query, pyOr, h1, h2, h3, truthy]
    simp [webhook, hq]
  · intro d
    rfl

/-- C8, witness: at the payload whose three query fields are present but
empty, the webhook answers 400 with an empty trace. -/
theorem c8_empty_fields_witness :
    webhook envEx dataEmptyFields = (Except.ok err400, []) :=
  (c8_empty_fields_400 envEx dataEmptyFields rfl rfl rfl).1

/-! ## C10 -/

/-- C10: `run_sql` closes the connection only on the success path.  When
the driver raises on execution or fetch, the exception propagates out of
`run_sql` and the trace shows the freshly opened connection without a
matching close; when execution succeeds, the trace closes the
connection after the fetch. -/
theorem c10_connection_close_only_on_success (env : Env) (sql : String) :
    (∀ e, env.db sql = Except.error e →
        run_sql env sql = (Except.error e, [Ev.dbOpen, Ev.dbExec sql])
        ∧ Ev.dbClose ∉ (run_sql env sql).2)
    ∧ (∀ (cols : List String) (rows : List Row), env.db sql = Except.ok (cols, rows) →
        run_sql env sql = (Except.ok (cols, rows), [Ev.dbOpen, Ev.dbExec sql, Ev.dbClose])) := by
  constructor
  · intro e hf
    constructor
    · simp [run_sql, hf]
    · simp [run_sql, hf]
  · intro cols rows h2
    simp [run_sql, h2]

/-- C10, witness: a concrete failing statement leaves the connection
open, and a concrete succeeding one closes it. -/
theorem c10_connection_witness :
    (run_sql envDbErr "SELECT 1"
        = (Except.error "no such table: Orders", [Ev.dbOpen, Ev.dbExec "SELECT 1"])
      ∧ Ev.dbClose ∉ (run_sql envDbErr "SELECT 1").2)
    ∧ run_sql envEx "SELECT 1"
        = (Except.ok (["COUNT(*)"], [[830]]), [Ev.dbOpen, Ev.dbExec "SELECT 1", Ev.dbClose]) :=
  ⟨(c10_connection_close_only_on_success envDbErr "SELECT 1").1 "no such table: Orders" rfl,
   (c10_connection_close_only_on_success envEx "SELECT 1").2 ["COUNT(*)"] [[830]] rfl⟩

/-! ## Case lemmas for the webhook pipeline -/

/-- Without a truthy query field, the webhook answers 400 at once. -/
theorem webhook_no_query (env : Env) (data : List (String × JVal))
    (hq : truthy (extract_nl_query data) = false) :
    webhook env data = (Except.ok err400, []) := by
  simp [webhook, hq]

/-- With a query present but the API key missing, the webhook dies on
the key check with an empty trace. -/
theorem webhook_keyMissing (env : Env) (data : List (String × JVal))
    (hq : truthy (extract_nl_query data) = true) (hk : keyMissing env = true) :
    webhook env data = (Except.error "GEMINI_API_KEY not set", []) := by
  simp [webhook, hq, call_gemini, call_gemini_api, hk]

/-- With the generation API call failing, the webhook dies after that
one HTTP call. -/
theorem webhook_gen_err (env : Env) (data : List (String × JVal)) (e : String)
    (hq : truthy (extract_nl_query data) = true) (hk : keyMissing env = false)
    (h1 : env.api (compose_gemini_prompt NORTHWIND_SCHEMA (pyStr (extract_nl_query data)))
        = Except.error e) :
    webhook env data = (Except.error e,
      [Ev.apiCall (compose_gemini_prompt NORTHWIND_SCHEMA (pyStr (extract_nl_query data)))]) := by
  simp [webhook, hq, call_gemini, call_gemini_api, hk, h1]

/-- With generation succeeding and the database raising, the webhook
dies after generation and the failed execution, connection unclosed. -/
theorem webhook_db_err (env : Env) (data : List (String × JVal)) (t e : String)
    (hq : truthy (extract_nl_query data) = true) (hk : keyMissing env = false)
    (h1 : env.api (compose_gemini_prompt NORTHWIND_SCHEMA (pyStr (extract_nl_query data)))
        = Except.ok t)
    (h2 : env.db (sanitizeStr t) = Except.error e) :
    webhook env data = (Except.error e,
      [Ev.apiCall (compose_gemini_prompt NORTHWIND_SCHEMA (pyStr (extract_nl_query data))),
       Ev.dbOpen, Ev.dbExec (sanitizeStr t)]) := by
  simp [webhook, hq, call_gemini, call_gemini_api, hk, h1, run_sql, h2]

/-- With generation and execution succeeding and the visualization API
call failing, the webhook dies after the second HTTP call. -/
theorem webhook_viz_err (env : Env) (data : List (String × JVal)) (t : String)
    (cols : List String) (rows : List Row) (e : String)
    (hq : truthy (extract_nl_query data) = true) (hk : keyMissing env = false)
    (h1 : env.api (compose_gemini_prompt NORTHWIND_SCHEMA (pyStr (extract_nl_query data)))
        = Except.ok t)
    (h2 : env.db (sanitizeStr t) = Except.ok (cols, rows))
    (h3 : env.api (vizPromptStr (pyStr (extract_nl_query data)) cols (sample_rows rows)
            (img_name env)) = Except.error e) :
    webhook env data = (Except.error e,
      [Ev.apiCall (compose_gemini_prompt NORTHWIND_SCHEMA (pyStr (extract_nl_query data))),
       Ev.dbOpen, Ev.dbExec (sanitizeStr t), Ev.dbClose,
       Ev.apiCall (vizPromptStr (pyStr (extract_nl_query data)) cols (sample_rows rows)
         (img_name env))]) := by
  simp [webhook, hq, call_gemini, call_gemini_api, hk, h1, run_sql, h2,
    visualise_and_save, prompt_gemini_for_plotly_viz, h3]

/-- The complete success path with `exec` of the generated code running
without exception. -/
theorem webhook_ok_exec (env : Env) (data : List (String × JVal)) (t : String)
    (cols : List String) (rows : List Row) (c : String)
    (hq : truthy (extract_nl_query data) = true) (hk : keyMissing env = false)
    (h1 : env.api (compose_gemini_prompt NORTHWIND_SCHEMA (pyStr (extract_nl_query data)))
        = Except.ok t)
    (h2 : env.db (sanitizeStr t) = Except.ok (cols, rows))
    (h3 : env.api (vizPromptStr (pyStr (extract_nl_query data)) cols (sample_rows rows)
            (img_name env)) = Except.ok c)
    (he : env.execResult (stripFencesStr c) = none) :
    webhook env data = (Except.ok (200, JVal.jobj
        [("status", JVal.jstr "ok"), ("sql", JVal.jstr (sanitizeStr t)),
         ("rows", JVal.jnum rows.length)]),
      [Ev.apiCall (compose_gemini_prompt NORTHWIND_SCHEMA (pyStr (extract_nl_query data))),
       Ev.dbOpen, Ev.dbExec (sanitizeStr t), Ev.dbClose,
       Ev.apiCall (vizPromptStr (pyStr (extract_nl_query data)) cols (sample_rows rows)
         (img_name env)),
       Ev.execViz (stripFencesStr c),
       Ev.printBody (bodyText (pyStr (extract_nl_query data)) (sanitizeStr t)
         rows.length "plotly")]) := by
  simp [webhook, hq, call_gemini, call_gemini_api, hk, h1, run_sql, h2,
    visualise_and_save, prompt_gemini_for_plotly_viz, h3, he]

/-- The complete success path with `exec` of the generated code raising:
the static-table fallback fires and the response is unchanged. -/
theorem webhook_ok_fallback (env : Env) (data : List (String × JVal)) (t : String)
    (cols : List String) (rows : List Row) (c err : String)
    (hq : truthy (extract_nl_query data) = true) (hk : keyMissing env = false)
    (h1 : env.api (compose_gemini_prompt NORTHWIND_SCHEMA (pyStr (extract_nl_query data)))
        = Except.ok t)
    (h2 : env.db (sanitizeStr t) = Except.ok (cols, rows))
    (h3 : env.api (vizPromptStr (pyStr (extract_nl_query data)) cols (sample_rows rows)
            (img_name env)) = Except.ok c)
    (he : env.execResult (stripFencesStr c) = some err) :
    webhook env data = (Except.ok (200, JVal.jobj
        [("status", JVal.jstr "ok"), ("sql", JVal.jstr (sanitizeStr t)),
         ("rows", JVal.jnum rows.length)]),
      [Ev.apiCall (compose_gemini_prompt NORTHWIND_SCHEMA (pyStr (extract_nl_query data))),
       Ev.dbOpen, Ev.dbExec (sanitizeStr t), Ev.dbClose,
       Ev.apiCall (vizPromptStr (pyStr (extract_nl_query data)) cols (sample_rows rows)
         (img_name env)),
       Ev.execViz (stripFencesStr c),
       Ev.fallbackTable cols rows (img_name env),
       Ev.printBody (bodyText (pyStr (extract_nl_query data)) (sanitizeStr t)
         rows.length "plotly")]) := by
  simp [webhook, hq, call_gemini, call_gemini_api, hk, h1, run_sql, h2,
    visualise_and_save, prompt_gemini_for_plotly_viz, h3, he]

/-! ## C3 -/

/-- C3: when `exec` of the model-generated visualization code raises,
`visualise_and_save` catches the exception and renders the raw rows and
columns as a static table image under the same timestamped filename it
returns; no failure propagates out of the function. -/
theorem c3_viz_fallback (env : Env) (columns : List String) (rows : List Row)
    (nl_query t err : String)
    (hk : keyMissing env = false)
    (ha : env.api (vizPromptStr nl_query columns (sample_rows rows) (img_name env))
        = Except.ok t)
    (hf : env.execResult (stripFencesStr t) = some err) :
    visualise_and_save env columns rows nl_query
      = (Except.ok (img_name env, "plotly"),
         [Ev.apiCall (vizPromptStr nl_query columns (sample_rows rows) (img_name env)),
          Ev.execViz (stripFencesStr t),
          Ev.fallbackTable columns rows (img_name env)]) := by
  simp [visualise_and_save, prompt_gemini_for_plotly_viz, call_gemini_api, hk, ha, hf]

/-- C3, witness: a concrete environment whose generated code raises on
`exec` still yields the ok result and the fallback rendering event. -/
theorem c3_viz_fallback_witness :
    visualise_and_save envFail ["COUNT(*)"] [[830]] "How many orders are there?"
      = (Except.ok (img_name envFail, "plotly"),
         [Ev.apiCall (vizPromptStr "How many orders are there?" ["COUNT(*)"]
            (sample_rows [[830]]) (img_name envFail)),
          Ev.execViz (stripFencesStr "fig.write_image(filename)"),
          Ev.fallbackTable ["COUNT(*)"] [[830]] (img_name envFail)]) :=
  c3_viz_fallback envFail ["COUNT(*)"] [[830]] "How many orders are there?"
    "fig.write_image(filename)" "NameError: name fig is not defined" rfl rfl rfl

/-! ## C5 -/

/-- C5: the row sample embedded in the visualization prompt is the first
`min 10 n` rows of the result: `sample_rows` equals `take 10`, its
length is `min 10 n`, and the prompt request depends only on the first
ten rows of the result set. -/
theorem c5_sample_rows_capped :
    (∀ rows : List Row, sample_rows rows = rows.take 10
      ∧ (sample_rows rows).length = min 10 rows.length)
    ∧ (∀ (env : Env) (nl_query : String) (columns : List String) (rows : List Row)
          (img_filename : String),
        prompt_gemini_for_plotly_viz env nl_query columns rows img_filename
          = prompt_gemini_for_plotly_viz env nl_query columns (rows.take 10) img_filename) := by
  have hsr : ∀ rows : List Row, sample_rows rows = rows.take 10 := by
    intro rows
    by_cases h : rows.length > 10
    · simp [sample_rows, h]
    · push_neg at h
      simp only [sample_rows, if_neg (by omega : ¬ rows.length > 10)]
      exact (List.take_of_length_le h).symm
  constructor
  · intro rows
    refine ⟨hsr rows, ?_⟩
    rw [hsr rows, List.length_take]
  · intro env nl_query columns rows img_filename
    have h10 : sample_rows (rows.take 10) = rows.take 10 := by
      rw [hsr, List.take_take, min_self]
    unfold prompt_gemini_for_plotly_viz
    rw [hsr rows, h10]

/-! ## C4 -/

/-- C4: when every pipeline stage succeeds, the webhook returns status
200 with body `status = "ok"`, the sanitized SQL text, and a `rows`
field equal to the number of rows the executed SQL returned; the trace
shows that the reported SQL is exactly the statement that was executed. -/
theorem c4_webhook_success (env : Env) (data : List (String × JVal)) (t : String)
    (cols : List String) (rows : List Row) (c : String)
    (hq : truthy (extract_nl_query data) = true) (hk : keyMissing env = false)
    (h1 : env.api (compose_gemini_prompt NORTHWIND_SCHEMA (pyStr (extract_nl_query data)))
        = Except.ok t)
    (h2 : env.db (sanitizeStr t) = Except.ok (cols, rows))
    (h3 : env.api (vizPromptStr (pyStr (extract_nl_query data)) cols (sample_rows rows)
            (img_name env)) = Except.ok c) :
    (webhook env data).1 = Except.ok (200, JVal.jobj
        [("status", JVal.jstr "ok"), ("sql", JVal.jstr (sanitizeStr t)),
         ("rows", JVal.jnum rows.length)])
    ∧ Ev.dbExec (sanitizeStr t) ∈ (webhook env data).2 := by
  cases he : env.execResult (stripFencesStr c) with
  | none =>
    rw [webhook_ok_exec env data t cols rows c hq hk h1 h2 h3 he]
    exact ⟨rfl, by simp⟩
  | some err =>
    rw [webhook_ok_fallback env data t cols rows c err hq hk h1 h2 h3 he]
    exact ⟨rfl, by simp⟩

/-- C4, witness: the canned generation response
`SELECT COUNT(*) FROM Orders` with a one-row count result yields the 200
response with `rows = 1`. -/
theorem c4_webhook_success_witness :
    (webhook envEx dataEx).1 = Except.ok (200, JVal.jobj
        [("status", JVal.jstr "ok"),
         ("sql", JVal.jstr (sanitizeStr "SELECT COUNT(*) FROM Orders")),
         ("rows", JVal.jnum 1)])
    ∧ Ev.dbExec (sanitizeStr "SELECT COUNT(*) FROM Orders") ∈ (webhook envEx dataEx).2 :=
  c4_webhook_success envEx dataEx "SELECT COUNT(*) FROM Orders" ["COUNT(*)"] [[830]]
    "SELECT COUNT(*) FROM Orders" rfl rfl rfl rfl rfl

/-! ## C6 -/

/-- C6: with a query present, the pipeline stages run in a fixed order.
The emitted trace is always a prefix of the full-run trace (generation
API call, then the database open/execute/close, then the visualization
API call and `exec`, then the body print); the database is only ever
executed after SQL generation completed without raising and only on the
statement generation produced; and `exec` of visualization code is only
reached after query execution completed without raising. -/
theorem c6_pipeline_stage_order (env : Env) (data : List (String × JVal))
    (hq : truthy (extract_nl_query data) = true) :
    (webhook env data).2 <+: fullTraceOf env data
    ∧ (∀ s, Ev.dbExec s ∈ (webhook env data).2 →
        keyMissing env = false
        ∧ ∃ t, env.api (genPromptOf data) = Except.ok t ∧ s = sanitizeStr t)
    ∧ (∀ cde, Ev.execViz cde ∈ (webhook env data).2 →
        ∃ t cols rows, env.api (genPromptOf data) = Except.ok t
          ∧ env.db (sanitizeStr t) = Except.ok (cols, rows)) := by
  have hgp : genPromptOf data
      = compose_gemini_prompt NORTHWIND_SCHEMA (pyStr (extract_nl_query data)) := rfl
  by_cases hk : keyMissing env = true
  · rw [webhook_keyMissing env data hq hk]
    refine ⟨⟨fullTraceOf env data, rfl⟩, ?_, ?_⟩
    · intro s hs; simp at hs
    · intro cde h; simp at h
  · rw [Bool.not_eq_true] at hk
    cases h1 : env.api (genPromptOf data) with
    | error e =>
      rw [hgp] at h1
      rw [webhook_gen_err env data e hq hk h1]
      refine ⟨?_, ?_, ?_⟩
      · exact ⟨Ev.dbOpen :: Ev.dbExec (genSqlOf env data) :: Ev.dbClose ::
          Ev.apiCall (vizPromptOf env data) :: Ev.execViz (vizCodeOf env data) ::
          fullTraceTail env data, by simp [fullTraceOf, hgp]⟩
      · intro s hs; simp at hs
      · intro cde h; simp at h
    | ok t =>
      have h1gp := h1
      rw [hgp] at h1
      have hsql : genSqlOf env data = sanitizeStr t := by
        simp [genSqlOf, h1gp, Except.toOption]
      cases h2 : env.db (sanitizeStr t) with
      | error e =>
        rw [webhook_db_err env data t e hq hk h1 h2]
        refine ⟨?_, ?_, ?_⟩
        · exact ⟨Ev.dbClose :: Ev.apiCall (vizPromptOf env data)
            :: Ev.execViz (vizCodeOf env data) :: fullTraceTail env data,
            by simp [fullTraceOf, hsql, hgp]⟩
        · intro s hs
          simp at hs
          exact ⟨hk, t, rfl, hs⟩
        · intro cde h; simp at h
      | ok pr =>
        obtain ⟨cols, rows⟩ := pr
        have hcols : dbColsOf env data = cols := by
          simp [dbColsOf, hsql, h2, Except.toOption]
        have hrows : dbRowsOf env data = rows := by
          simp [dbRowsOf, hsql, h2, Except.toOption]
        have hvp : vizPromptOf env data
            = vizPromptStr (pyStr (extract_nl_query data)) cols (sample_rows rows)
                (img_name env) := by
          simp only [vizPromptOf, hcols, hrows]
        cases h3 : env.api (vizPromptStr (pyStr (extract_nl_query data)) cols
            (sample_rows rows) (img_name env)) with
        | error e =>
          rw [webhook_viz_err env data t cols rows e hq hk h1 h2 h3]
          refine ⟨?_, ?_, ?_⟩
          · exact ⟨Ev.execViz (vizCodeOf env data) :: fullTraceTail env data,
              by simp [fullTraceOf, hsql, hvp, hgp]⟩
          · intro s hs
            simp at hs
            exact ⟨hk, t, rfl, hs⟩
          · intro cde h; simp at h
        | ok c =>
          have hvc : vizCodeOf env data = stripFencesStr c := by
            simp [vizCodeOf, hvp, h3, Except.toOption]
          have hbody : bodyOf env data
              = bodyText (pyStr (extract_nl_query data)) (sanitizeStr t)
                  rows.length "plotly" := by
            simp [bodyOf, hsql, hrows]
          cases he : env.execResult (stripFencesStr c) with
          | none =>
            rw [webhook_ok_exec env data t cols rows c hq hk h1 h2 h3 he]
            have htail : fullTraceTail env data
                = [Ev.printBody (bodyText (pyStr (extract_nl_query data))
                    (sanitizeStr t) rows.length "plotly")] := by
              rw [fullTraceTail, hvc, he, hbody]
            refine ⟨?_, ?_, ?_⟩
            · exact ⟨[], by simp [fullTraceOf, hsql, hvp, hvc, htail, hgp]⟩
            · intro s hs
              simp at hs
              exact ⟨hk, t, rfl, hs⟩
            · intro cde h
              exact ⟨t, cols, rows, rfl, h2⟩
          | some err =>
            rw [webhook_ok_fallback env data t cols rows c err hq hk h1 h2 h3 he]
            have htail : fullTraceTail env data
                = [Ev.fallbackTable cols rows (img_name env),
                   Ev.printBody (bodyText (pyStr (extract_nl_query data))
                    (sanitizeStr t) rows.length "plotly")] := by
              rw [fullTraceTail, hvc, he, hcols, hrows, hbody]
            refine ⟨?_, ?_, ?_⟩
            · exact ⟨[], by simp [fullTraceOf, hsql, hvp, hvc, htail, hgp]⟩
            · intro s hs
              simp at hs
              exact ⟨hk, t, rfl, hs⟩
            · intro cde h
              exact ⟨t, cols, rows, rfl, h2⟩

/-- C6, witness: on a concrete all-success run the emitted trace is a
prefix of the full-run trace. -/
theorem c6_pipeline_order_witness :
    truthy (extract_nl_query dataEx) = true
    ∧ (webhook envEx dataEx).2 <+: fullTraceOf envEx dataEx :=
  ⟨rfl, (c6_pipeline_stage_order envEx dataEx rfl).1⟩

/-! ## C9 -/

/-- Every reply body the webhook ever prints was composed with the chart
type label `plotly`. -/
theorem webhook_printBody_shape (env : Env) (data : List (String × JVal)) (b : String)
    (h : Ev.printBody b ∈ (webhook env data).2) :
    ∃ q s n, b = bodyText q s n "plotly" := by
  by_cases hq : truthy (extract_nl_query data) = true
  · by_cases hk : keyMissing env = true
    · rw [webhook_keyMissing env data hq hk] at h
      simp at h
    · rw [Bool.not_eq_true] at hk
      cases h1 : env.api (compose_gemini_prompt NORTHWIND_SCHEMA
          (pyStr (extract_nl_query data))) with
      | error e =>
        rw [webhook_gen_err env data e hq hk h1] at h
        simp at h
      | ok t =>
        cases h2 : env.db (sanitizeStr t) with
        | error e =>
          rw [webhook_db_err env data t e hq hk h1 h2] at h
          simp at h
        | ok pr =>
          obtain ⟨cols, rows⟩ := pr
          cases h3 : env.api (vizPromptStr (pyStr (extract_nl_query data)) cols
              (sample_rows rows) (img_name env)) with
          | error e =>
            rw [webhook_viz_err env data t cols rows e hq hk h1 h2 h3] at h
            simp at h
          | ok c =>
            cases he : env.execResult (stripFencesStr c) with
            | none =>
              rw [webhook_ok_exec env data t cols rows c hq hk h1 h2 h3 he] at h
              simp at h
              exact ⟨_, _, _, h⟩
            | some err =>
              rw [webhook_ok_fallback env data t cols rows c err hq hk h1 h2 h3 he] at h
              simp at h
              exact ⟨_, _, _, h⟩
  · rw [Bool.not_eq_true] at hq
    rw [webhook_no_query env data hq] at h
    simp at h

/-- C9: `visualise_and_save` labels its result `plotly` whenever it
returns at all — also when the generated code raised and the image came
from the static matplotlib-table fallback — and consequently every reply
body the webhook composes describes the attachment as a plotly
visualization. -/
theorem c9_chart_label_always_plotly :
    (∀ (env : Env) (columns : List String) (rows : List Row) (nl_query f ct : String),
        (visualise_and_save env columns rows nl_query).1 = Except.ok (f, ct) →
        ct = "plotly")
    ∧ (∀ (env : Env) (data : List (String × JVal)) (b : String),
        Ev.printBody b ∈ (webhook env data).2 →
        ∃ q s n, b = bodyText q s n "plotly") := by
  constructor
  · intro env columns rows nl_query f ct h
    unfold visualise_and_save at h
    cases hp : prompt_gemini_for_plotly_viz env nl_query columns rows (img_name env) with
    | mk res tr =>
      rw [hp] at h
      cases res with
      | error e => simp at h
      | ok code =>
        cases he : env.execResult code with
        | none =>
          simp [he] at h
          exact h.2.symm
        | some err =>
          simp [he] at h
          exact h.2.symm
  · intro env data b h
    exact webhook_printBody_shape env data b h

/-- C9, witness: with `exec` raising, the function still reports the
`plotly` label, obtained through the theorem at this concrete run. -/
theorem c9_chart_label_witness :
    (visualise_and_save envFail ["COUNT(*)"] [[830]] "How many orders are there?").1
      = Except.ok (img_name envFail, "plotly")
    ∧ "plotly" = "plotly" :=
  ⟨rfl, c9_chart_label_always_plotly.1 envFail ["COUNT(*)"] [[830]]
    "How many orders are there?" (img_name envFail) "plotly" rfl⟩

end NlSql
